import Mathlib

/-
  Verification of the tour-planning demo application.

  The embedding models the Dash callbacks of `app.py` and the helpers of
  `helpers_jobs.py` as pure Lean functions.  External effects (the remote
  cloud client, wall-clock time, formatting helpers that live in modules
  outside this repository) are supplied through explicit environment
  records of oracle functions, so every callback is a total function of
  its trigger, its component states and that environment.  Python
  exceptions are modelled with an explicit `Exc` type: a call that may
  raise returns `Except Exc _`, and a callback from which an exception
  can escape returns a result type with a `raise` constructor.
-/

namespace TourPlanning

/-- `dash.no_update` versus a newly set component value. -/
inductive Upd (α : Type) where
  | noUpdate
  | set (a : α)
  deriving DecidableEq, Repr

/-- Python exceptions relevant to interaction with the remote cloud client. -/
inductive Exc where
  | resourceNotFound
  | transient
  | indexError
  | keyError (k : String)
  | valueError
  deriving DecidableEq, Repr

/-- A remote problem-status record: `status.status.value` and the job label. -/
structure ProblemStatus where
  statusValue : String
  label : String
  deriving DecidableEq, Repr

/-- Outcome of `p.get_problem_status(job_id)`: a status record or an exception. -/
inductive PollOutcome where
  | ok (ps : ProblemStatus)
  | exc (e : Exc)
  deriving DecidableEq, Repr

/-- The `style` dict of the cancel button: `dict()` or `dict(display="none")`. -/
inductive BtnStyle where
  | visible
  | hidden
  deriving DecidableEq, Repr

/-- `TERMINATED = ["COMPLETED", "CANCELLED", "FAILED"]` (app.py line 55). -/
def TERMINATED : List String := ["COMPLETED", "CANCELLED", "FAILED"]

/-- `RUNNING = ["PENDING", "IN_PROGRESS"]` (app.py line 56). -/
def RUNNING : List String := ["PENDING", "IN_PROGRESS"]

/-- The `job_bar` dict (app.py lines 46-53): progress value and color per
status; `none` models a `KeyError` on lookup of an unknown status. -/
def job_bar : String → Option (Nat × String)
  | "READY" => some (0, "link")
  | "WAITING" => some (0, "light")
  | "SUBMITTED" => some (25, "info")
  | "PENDING" => some (50, "warning")
  | "IN_PROGRESS" => some (75, "primary")
  | "COMPLETED" => some (100, "success")
  | "CANCELLED" => some (100, "dark")
  | "FAILED" => some (100, "danger")
  | _ => none

/-- A retrieved sampleset is opaque data; all structure it has comes from the
oracle functions of the environment. -/
abbrev Sampleset := Nat

/-- Environment of `cqm_submit`: the remote client, wall-clock time and the
formatting helpers from modules outside this repository. -/
structure CqmEnv where
  /-- `Problems(...).get_problem_status(job_id)` at this firing. -/
  poll : String → PollOutcome
  /-- `client.retrieve_answer(job_id).sampleset`, which may raise. -/
  retrieve : String → Except Exc Sampleset
  /-- `datetime.datetime.now().strftime("%c")`. -/
  nowStr : String
  /-- seconds elapsed since `strptime(job_submit_time, "%c")`. -/
  elapsedSec : String → Nat
  /-- formatting helper `out_job_submit_state` (external module). -/
  outJobSubmitState : String → String
  /-- `json.dumps(sampleset.to_serializable())`. -/
  serializeSampleset : Sampleset → String
  /-- formatting helper `out_solutions_human` (external module). -/
  humanSampleset : Sampleset → String

/-- The thirteen outputs of the `cqm_submit` callback, in declaration order
(app.py lines 423-435). -/
structure CqmSubmitOut where
  btn_solve_cqm_disabled : Upd Bool
  btn_cancel_style : Upd BtnStyle
  wd_job_disabled : Upd Bool
  wd_job_interval : Upd Nat
  wd_job_n_intervals : Upd Nat
  bar_job_status_value : Upd Nat
  bar_job_status_color : Upd String
  job_submit_state : Upd String
  job_sm : Upd String
  job_submit_time : Upd String
  job_elapsed_time : Upd String
  solutions_print_code : Upd String
  solutions_print_human : Upd String
  deriving DecidableEq, Repr

/-- All thirteen outputs `dash.no_update` (app.py lines 449-453). -/
def cqmNoUpdate : CqmSubmitOut :=
  { btn_solve_cqm_disabled := .noUpdate
    btn_cancel_style := .noUpdate
    wd_job_disabled := .noUpdate
    wd_job_interval := .noUpdate
    wd_job_n_intervals := .noUpdate
    bar_job_status_value := .noUpdate
    bar_job_status_color := .noUpdate
    job_submit_state := .noUpdate
    job_sm := .noUpdate
    job_submit_time := .noUpdate
    job_elapsed_time := .noUpdate
    solutions_print_code := .noUpdate
    solutions_print_human := .noUpdate }

/-- Result of one firing of `cqm_submit`: a tuple of outputs, an escaped
exception, or Python's implicit `None` return (the final fall-through). -/
inductive CqmResult where
  | ret (o : CqmSubmitOut)
  | raise (e : Exc)
  | noneRet
  deriving DecidableEq, Repr

/-- Scanner for `pySplit`: emit the accumulated segment at each left-most
non-overlapping occurrence of the separator.  Fuel-based structural
recursion (fuel bounds the number of characters scanned) so that concrete
instances evaluate inside the kernel. -/
def pySplitAux (sep : List Char) : Nat → List Char → List Char → List (List Char)
  | 0, l, acc => [acc.reverse ++ l]
  | _ + 1, [], acc => [acc.reverse]
  | fuel + 1, c :: rest, acc =>
    if sep.isPrefixOf (c :: rest) then
      acc.reverse :: pySplitAux sep fuel ((c :: rest).drop sep.length) []
    else
      pySplitAux sep fuel rest (c :: acc)

/-- Python's `str.split(sep)` for a non-empty separator: the list of
segments between the left-most non-overlapping occurrences of `sep`. -/
def pySplit (s sep : String) : List String :=
  (pySplitAux sep.data (s.data.length + 1) s.data []).map String.mk

/-- The `try` block of the SUBMITTED branch (app.py lines 465-477): poll the
remote status, extract the timestamp embedded after "submitted: " in the
job label, and adopt the remote status only when it matches the current
`job_submit_time`; any exception (including the `IndexError` of a label
without the marker) falls back to "SUBMITTED". -/
def submittedPollStatus (env : CqmEnv) (job_id job_submit_time : String) : String :=
  match env.poll job_id with
  | .exc _ => "SUBMITTED"
  | .ok ps =>
    match (pySplit ps.label "submitted: ")[1]? with
    | none => "SUBMITTED"
    | some label_time =>
      if label_time = job_submit_time then ps.statusValue else "SUBMITTED"

/-- The `cqm_submit` callback (app.py lines 443-518).  Faithful points:
the SUBMITTED branch wraps its poll in `try/except Exception` with a
"SUBMITTED" fallback, in which the label-split index access is also
caught; the PENDING/IN_PROGRESS branch polls and retrieves without any
`try`, so those exceptions escape, as does a `KeyError` on `job_bar`;
the terminal branch leaves `job_sm` untouched; any state not matched by
a branch falls through to Python's implicit `None`. -/
def cqm_submit (env : CqmEnv) (trigger_id job_id job_sm job_submit_time : String) :
    CqmResult :=
  if ¬ (trigger_id = "btn_solve_cqm" ∨ trigger_id = "wd_job") then
    .ret cqmNoUpdate
  else if trigger_id = "btn_solve_cqm" then
    .ret
      { btn_solve_cqm_disabled := .set true
        btn_cancel_style := .set .visible
        wd_job_disabled := .set false
        wd_job_interval := .set 200
        wd_job_n_intervals := .set 0
        bar_job_status_value := .set 25
        bar_job_status_color := .set "info"
        job_submit_state := .set (env.outJobSubmitState "SUBMITTED")
        job_sm := .set "SUBMITTED"
        job_submit_time := .set env.nowStr
        job_elapsed_time := .set "Elapsed: 0 sec."
        solutions_print_code := .noUpdate
        solutions_print_human := .noUpdate }
  else if job_sm = "SUBMITTED" then
    let status : String := submittedPollStatus env job_id job_submit_time
    .ret
      { btn_solve_cqm_disabled := .set true
        btn_cancel_style := .noUpdate
        wd_job_disabled := .set false
        wd_job_interval := .set 1000
        wd_job_n_intervals := .set 0
        bar_job_status_value := .set 25
        bar_job_status_color := .set "info"
        job_submit_state := .set (env.outJobSubmitState status)
        job_sm := .set status
        job_submit_time := .noUpdate
        job_elapsed_time :=
          .set ("Elapsed: " ++ toString (env.elapsedSec job_submit_time) ++ " sec.")
        solutions_print_code := .noUpdate
        solutions_print_human := .noUpdate }
  else if job_sm = "PENDING" ∨ job_sm = "IN_PROGRESS" then
    match env.poll job_id with
    | .exc e => .raise e
    | .ok ps =>
      let status := ps.statusValue
      let hide_button : Upd BtnStyle :=
        if status = "IN_PROGRESS" then .set .hidden else .noUpdate
      let retrieved : Except Exc (Upd String × Upd String) :=
        if status = "COMPLETED" then
          match env.retrieve job_id with
          | .error e => .error e
          | .ok sampleset =>
            .ok (.set (env.serializeSampleset sampleset),
                 .set (env.humanSampleset sampleset))
        else .ok (.noUpdate, .noUpdate)
      match retrieved with
      | .error e => .raise e
      | .ok (sampleset_code, sampleset_human) =>
        match job_bar status with
        | none => .raise (.keyError status)
        | some barEntry =>
          .ret
            { btn_solve_cqm_disabled := .set true
              btn_cancel_style := hide_button
              wd_job_disabled := .set false
              wd_job_interval := .set 1000
              wd_job_n_intervals := .set 0
              bar_job_status_value := .set barEntry.1
              bar_job_status_color := .set barEntry.2
              job_submit_state := .set (env.outJobSubmitState status)
              job_sm := .set status
              job_submit_time := .noUpdate
              job_elapsed_time :=
                .set ("Elapsed: " ++ toString (env.elapsedSec job_submit_time) ++ " sec.")
              solutions_print_code := sampleset_code
              solutions_print_human := sampleset_human }
  else if job_sm = "COMPLETED" ∨ job_sm = "CANCELLED" ∨ job_sm = "FAILED" then
    .ret
      { btn_solve_cqm_disabled := .set false
        btn_cancel_style := .noUpdate
        wd_job_disabled := .set true
        wd_job_interval := .set 100
        wd_job_n_intervals := .set 0
        bar_job_status_value := .noUpdate
        bar_job_status_color := .noUpdate
        job_submit_state := .noUpdate
        job_sm := .noUpdate
        job_submit_time := .noUpdate
        job_elapsed_time :=
          .set ("Elapsed: " ++ toString (env.elapsedSec job_submit_time) ++ " sec.")
        solutions_print_code := .noUpdate
        solutions_print_human := .noUpdate }
  else
    .noneRet

/-- The `get_status` helper (helpers_jobs.py lines 36-47).  Its `try` block
covers the poll, the label split and the comparison, but the `except`
clause catches only `ResourceNotFoundError`; a transient error or the
`IndexError` from a label lacking the marker propagates. -/
def get_status (poll : String → PollOutcome) (job_id job_submit_time : String) :
    Except Exc (Option String) :=
  match poll job_id with
  | .exc .resourceNotFound => .ok none
  | .exc e => .error e
  | .ok ps =>
    match (pySplit ps.label "submitted: ")[1]? with
    | none => .error .indexError
    | some label_time =>
      if label_time = job_submit_time then .ok (some ps.statusValue) else .ok none

/-- Result of `cancel` (helpers_jobs.py lines 22-29): the returned status on
success, or the caught exception object returned as the function value.
No `raise` case: `except Exception` catches everything. -/
inductive CancelRet where
  | status (s : String)
  | errObj (e : Exc)
  deriving DecidableEq, Repr

/-- The `cancel` helper (helpers_jobs.py lines 22-29): wraps
`p.cancel_problem(job_id)` in `try/except Exception` and returns the
caught error instead of raising. -/
def cancel (cancel_problem : String → Except Exc String) (job_id : String) : CancelRet :=
  match cancel_problem job_id with
  | .ok s => .status s
  | .error e => .errObj e

/-- One leg of the tour, as in the problem-code JSON:
length, elevation gain ("uphill") and toll flag. -/
structure Leg where
  length : Rat
  uphill : Rat
  toll : Bool
  deriving DecidableEq, Repr

/-- The parsed problem code. -/
abbrev Legs := List Leg

/-- A constrained quadratic model is opaque: it is built and consumed only
by the external modeling library, reached through oracle functions. -/
structure CQM where
  modelId : Nat
  deriving DecidableEq, Repr

/-- Environment of `job_submit` and of the `cqm` callback: the external
modeling library (`in_problem_code`, `build_cqm`, `__str__`), the global
`modes = transport.keys()` and the remote solver calls.  The parameter
slots of `build_cqm` follow its call signature in the source: legs,
modes, max_leg_slope, max_cost, max_time, weight_cost, weight_time,
weight_slope.  `sample_cqm` takes the problem-data id, the label and the
`time_limit` argument and yields `computation.wait_id()`. -/
structure SubmitEnv where
  get_solver : Except Exc Unit
  in_problem_code : String → Except Exc Legs
  build_cqm : Legs → List String → Rat → Rat → Rat → Rat → Rat → Rat → CQM
  cqmStr : CQM → String
  modes : List String
  upload_cqm : CQM → Except Exc String
  sample_cqm : String → String → Nat → Except Exc String

/-- Result of one firing of `job_submit`: the new `job_id` output or an
escaped exception. -/
inductive SubmitResult where
  | ret (v : Upd String)
  | raise (e : Exc)
  deriving DecidableEq, Repr

/-- The `job_submit` callback (app.py lines 399-420).  None of the remote
calls is inside a `try`, so every failure escapes the callback. -/
def job_submit (env : SubmitEnv) (trigger_id job_submit_time problem_print_code : String)
    (max_leg_slope max_cost max_time weight_cost weight_time weight_slope : Rat) :
    SubmitResult :=
  if trigger_id = "job_submit_time" then
    match env.get_solver with
    | .error e => .raise e
    | .ok _ =>
      match env.in_problem_code problem_print_code with
      | .error e => .raise e
      | .ok legs =>
        match env.upload_cqm (env.build_cqm legs env.modes max_leg_slope max_cost
            max_time weight_cost weight_time weight_slope) with
        | .error e => .raise e
        | .ok problem_data_id =>
          match env.sample_cqm problem_data_id
              ("Examples - Tour Planning, submitted: " ++ job_submit_time) 5 with
          | .error e => .raise e
          | .ok wait_id => .ret (.set wait_id)
  else
    .ret .noUpdate

/-- One firing of the `job_submit` callback as Dash actually invokes it:
arguments are bound positionally in the decorator's State order (app.py
lines 394-398) — problem code, slope, then the three weight settings,
then the two budget settings — while the def names its parameters in the
order slope, budgets, weights (lines 399-400).  The parameters here are
named by the UI component each value comes from; the positional binding
delivers `weight_cost` into the def's `max_cost` parameter, `weight_time`
into `max_time`, `weight_slope` into `weight_cost`, `max_cost` into
`weight_time` and `max_time` into `weight_slope`. -/
def job_submit_dispatch (env : SubmitEnv)
    (trigger_id job_submit_time problem_print_code : String)
    (max_leg_slope weight_cost weight_time weight_slope max_cost max_time : Rat) :
    SubmitResult :=
  job_submit env trigger_id job_submit_time problem_print_code
    max_leg_slope weight_cost weight_time weight_slope max_cost max_time

/-- The `cqm` callback (app.py lines 328-346): result is the `cqm_print`
output (`none` models Python's implicit `None` when neither input
triggered), or an escaped exception (`except ValueError` catches only
that). -/
def cqm_callback (env : SubmitEnv) (trigger_id input_print problem_print_code : String)
    (max_leg_slope max_cost max_time weight_cost weight_time weight_slope : Rat) :
    Except Exc (Option (Upd String)) :=
  if trigger_id = "input_print" ∨ trigger_id = "problem_print_code" then
    match env.in_problem_code problem_print_code with
    | .ok legs =>
      .ok (some (.set (env.cqmStr (env.build_cqm legs env.modes max_leg_slope
        max_cost max_time weight_cost weight_time weight_slope))))
    | .error .valueError => .ok (some .noUpdate)
    | .error e => .error e
  else
    .ok none

/-- One firing of the `cqm` callback as Dash actually invokes it: arguments
bound positionally in the decorator's State order (app.py lines 325-327)
— slope, the three weight settings, the two budget settings — while the
def names its parameters slope, budgets, weights (lines 328-330).  The
parameters here are named by the UI component each value comes from; the
positional binding permutes them into the def's like-named parameters
exactly as in `job_submit_dispatch`. -/
def cqm_callback_dispatch (env : SubmitEnv)
    (trigger_id input_print problem_print_code : String)
    (max_leg_slope weight_cost weight_time weight_slope max_cost max_time : Rat) :
    Except Exc (Option (Upd String)) :=
  cqm_callback env trigger_id input_print problem_print_code
    max_leg_slope weight_cost weight_time weight_slope max_cost max_time

/-- The nine configurable values, post-clamping, handed to the
`out_input_human` formatting helper. -/
structure InputsRec where
  num_legs : Rat
  max_leg_length : Rat
  min_leg_length : Rat
  max_leg_slope : Rat
  max_cost : Rat
  max_time : Rat
  weight_cost : Rat
  weight_time : Rat
  weight_slope : Rat
  deriving DecidableEq, Repr

/-- The keys of `{**init_tour, **init_cqm}` (app.py line 288): a trigger id
outside this set is normalized to `None` before formatting. -/
def config_keys : List String :=
  ["num_legs", "max_leg_length", "min_leg_length", "max_leg_slope",
   "max_cost", "max_time", "weight_cost", "weight_time", "weight_slope"]

/-- The outputs of the `user_inputs` callback, in declaration order
(app.py lines 251-254): the readable text, the four leg inputs, the
three weight inputs and the three weight sliders. -/
structure UserInputsOut where
  input_print : String
  num_legs : Rat
  max_leg_length : Rat
  min_leg_length : Rat
  max_leg_slope : Rat
  weight_cost : Upd Rat
  weight_time : Upd Rat
  weight_slope : Upd Rat
  weight_cost_slider : Upd Rat
  weight_time_slider : Upd Rat
  weight_slope_slider : Upd Rat
  deriving DecidableEq, Repr

/-- The `user_inputs` callback (app.py lines 259-294).  The two clamping
`if`s run in sequence, the second reading the possibly already clamped
`min_leg_length`; each weight output is set only when its own input or
slider was the trigger; `out_input_human` is the external formatting
helper, applied to the post-clamp values and the normalized trigger. -/
def user_inputs (out_input_human : InputsRec → Option String → String)
    (trigger_id : String)
    (num_legs max_leg_length min_leg_length max_leg_slope
     weight_cost weight_time weight_slope
     weight_cost_slider weight_time_slider weight_slope_slider
     max_cost max_time : Rat) : UserInputsOut :=
  let min_leg_length :=
    if trigger_id = "max_leg_length" ∧ max_leg_length ≤ min_leg_length then
      max_leg_length
    else min_leg_length
  let max_leg_length :=
    if trigger_id = "min_leg_length" ∧ min_leg_length ≥ max_leg_length then
      min_leg_length
    else max_leg_length
  let wcost : Upd Rat :=
    if trigger_id = "weight_cost_slider" then .set weight_cost_slider
    else if trigger_id = "weight_cost" then .set weight_cost
    else .noUpdate
  let wtime : Upd Rat :=
    if trigger_id = "weight_time_slider" then .set weight_time_slider
    else if trigger_id = "weight_time" then .set weight_time
    else .noUpdate
  let wslope : Upd Rat :=
    if trigger_id = "weight_slope_slider" then .set weight_slope_slider
    else if trigger_id = "weight_slope" then .set weight_slope
    else .noUpdate
  let rec_ : InputsRec :=
    { num_legs := num_legs
      max_leg_length := max_leg_length
      min_leg_length := min_leg_length
      max_leg_slope := max_leg_slope
      max_cost := max_cost
      max_time := max_time
      weight_cost := weight_cost
      weight_time := weight_time
      weight_slope := weight_slope }
  let tnorm : Option String :=
    if config_keys.contains trigger_id then some trigger_id else none
  { input_print := out_input_human rec_ tnorm
    num_legs := num_legs
    max_leg_length := max_leg_length
    min_leg_length := min_leg_length
    max_leg_slope := max_leg_slope
    weight_cost := wcost
    weight_time := wtime
    weight_slope := wslope
    weight_cost_slider := wcost
    weight_time_slider := wtime
    weight_slope_slider := wslope }

/-- Concrete environment builder for evaluating `cqm_submit` at given remote
behaviours. -/
def mkCqmEnv (poll : String → PollOutcome) (retrieve : String → Except Exc Sampleset) :
    CqmEnv :=
  { poll := poll
    retrieve := retrieve
    nowStr := "Mon Oct 12 10:00:00 2026"
    elapsedSec := fun _ => 3
    outJobSubmitState := fun s => "Status: " ++ s
    serializeSampleset := fun n => "sampleset-code-" ++ toString n
    humanSampleset := fun n => "sampleset-human-" ++ toString n }

/-- A remote that reports PENDING with a matching label for timestamp `t0`. -/
def envPending : CqmEnv :=
  mkCqmEnv (fun _ => .ok ⟨"PENDING", "Examples - Tour Planning, submitted: t0"⟩)
    (fun _ => .ok 7)

/-- A remote whose status poll raises a transient (non-not-found) error. -/
def envTransient : CqmEnv :=
  mkCqmEnv (fun _ => .exc .transient) (fun _ => .ok 7)

/-- A remote that reports COMPLETED with a matching label and returns an
answer. -/
def envCompleted : CqmEnv :=
  mkCqmEnv (fun _ => .ok ⟨"COMPLETED", "Examples - Tour Planning, submitted: t0"⟩)
    (fun _ => .ok 7)

/-- All thirteen outputs of a `cqm_submit` firing are `dash.no_update`. -/
def AllNoUpdate (o : CqmSubmitOut) : Prop :=
  o.btn_solve_cqm_disabled = .noUpdate ∧
  o.btn_cancel_style = .noUpdate ∧
  o.wd_job_disabled = .noUpdate ∧
  o.wd_job_interval = .noUpdate ∧
  o.wd_job_n_intervals = .noUpdate ∧
  o.bar_job_status_value = .noUpdate ∧
  o.bar_job_status_color = .noUpdate ∧
  o.job_submit_state = .noUpdate ∧
  o.job_sm = .noUpdate ∧
  o.job_submit_time = .noUpdate ∧
  o.job_elapsed_time = .noUpdate ∧
  o.solutions_print_code = .noUpdate ∧
  o.solutions_print_human = .noUpdate

/-- The status adopted by the SUBMITTED branch is either the fallback
"SUBMITTED" or the remotely reported status of the polled job. -/
theorem submittedPollStatus_cases (env : CqmEnv) (job_id job_submit_time : String) :
    submittedPollStatus env job_id job_submit_time = "SUBMITTED" ∨
      ∃ ps, env.poll job_id = .ok ps ∧
        submittedPollStatus env job_id job_submit_time = ps.statusValue := by
  unfold submittedPollStatus
  cases hp : env.poll job_id with
  | exc e => left; rfl
  | ok ps =>
    show (match (pySplit ps.label "submitted: ")[1]? with
      | none => "SUBMITTED"
      | some label_time =>
        if label_time = job_submit_time then ps.statusValue else "SUBMITTED")
        = "SUBMITTED" ∨
      ∃ q, PollOutcome.ok ps = .ok q ∧
        (match (pySplit ps.label "submitted: ")[1]? with
          | none => "SUBMITTED"
          | some label_time =>
            if label_time = job_submit_time then ps.statusValue else "SUBMITTED")
          = q.statusValue
    cases hl : (pySplit ps.label "submitted: ")[1]? with
    | none => left; rfl
    | some lt =>
      by_cases he : lt = job_submit_time
      · right
        refine ⟨ps, rfl, ?_⟩
        show (if lt = job_submit_time then ps.statusValue else "SUBMITTED") = _
        rw [if_pos he]
      · left
        show (if lt = job_submit_time then ps.statusValue else "SUBMITTED") = _
        rw [if_neg he]

/-- When the remote label carries an embedded timestamp, the SUBMITTED
branch adopts the remote status exactly when that timestamp matches. -/
theorem submittedPollStatus_label (env : CqmEnv) (job_id job_submit_time : String)
    (ps : ProblemStatus) (lt : String)
    (hp : env.poll job_id = .ok ps)
    (hl : (pySplit ps.label "submitted: ")[1]? = some lt) :
    submittedPollStatus env job_id job_submit_time =
      if lt = job_submit_time then ps.statusValue else "SUBMITTED" := by
  unfold submittedPollStatus
  rw [hp]
  show (match (pySplit ps.label "submitted: ")[1]? with
    | none => "SUBMITTED"
    | some label_time =>
      if label_time = job_submit_time then ps.statusValue else "SUBMITTED") = _
  rw [hl]

/-- The SUBMITTED branch never raises: it always returns outputs, with both
state labels showing the polled (or fallback) status, the timer kept
enabled at the 1000 ms interval, and the solutions outputs untouched. -/
theorem cqm_submit_submitted_eq (env : CqmEnv) (job_id job_submit_time : String) :
    cqm_submit env "wd_job" job_id "SUBMITTED" job_submit_time =
      .ret
        { btn_solve_cqm_disabled := .set true
          btn_cancel_style := .noUpdate
          wd_job_disabled := .set false
          wd_job_interval := .set 1000
          wd_job_n_intervals := .set 0
          bar_job_status_value := .set 25
          bar_job_status_color := .set "info"
          job_submit_state :=
            .set (env.outJobSubmitState (submittedPollStatus env job_id job_submit_time))
          job_sm := .set (submittedPollStatus env job_id job_submit_time)
          job_submit_time := .noUpdate
          job_elapsed_time :=
            .set ("Elapsed: " ++ toString (env.elapsedSec job_submit_time) ++ " sec.")
          solutions_print_code := .noUpdate
          solutions_print_human := .noUpdate } := rfl

/-- Whatever `cqm_submit` outputs for `job_sm`, it is unchanged, freshly
"SUBMITTED", or copied from the remotely reported status of `job_id`. -/
theorem cqm_submit_jobSm_cases (env : CqmEnv)
    (trigger_id job_id job_sm job_submit_time : String)
    (o : CqmSubmitOut)
    (h : cqm_submit env trigger_id job_id job_sm job_submit_time = .ret o) :
    o.job_sm = .noUpdate ∨ o.job_sm = .set "SUBMITTED" ∨
      ∃ ps, env.poll job_id = .ok ps ∧ o.job_sm = .set ps.statusValue := by
  unfold cqm_submit at h
  split at h
  · cases h; left; rfl
  · split at h
    · cases h; right; left; rfl
    · split at h
      · cases h
        rcases submittedPollStatus_cases env job_id job_submit_time with
          h1 | ⟨ps, hp, h1⟩
        · right; left
          show Upd.set (submittedPollStatus env job_id job_submit_time) = _
          rw [h1]
        · right; right
          refine ⟨ps, hp, ?_⟩
          show Upd.set (submittedPollStatus env job_id job_submit_time) = _
          rw [h1]
      · split at h
        · cases hp : env.poll job_id with
          | exc e => rw [hp] at h; cases h
          | ok ps =>
            rw [hp] at h
            right; right
            refine ⟨ps, rfl, ?_⟩
            simp only at h
            split at h
            · cases h
            · split at h
              · cases h
              · cases h; rfl
        · split at h
          · cases h; left; rfl
          · cases h

/-- C1: the job-submission callback implements a linear status poll over
`job_sm`: a click on `btn_solve_cqm` always sets the label to SUBMITTED
from any prior state; from SUBMITTED the label moves only to the remotely
reported status or stays SUBMITTED; from PENDING or IN_PROGRESS it moves
to the remotely reported status; once the label is COMPLETED, CANCELLED
or FAILED it never changes until the next click; and, when the remote
reports only running or terminated statuses, no transition leaves the
chain READY → SUBMITTED → PENDING/IN_PROGRESS →
COMPLETED/CANCELLED/FAILED. -/
theorem C1_job_sm_state_machine (env : CqmEnv)
    (trigger_id job_id job_sm job_submit_time : String) :
    (trigger_id = "btn_solve_cqm" →
      ∃ o, cqm_submit env trigger_id job_id job_sm job_submit_time = .ret o ∧
        o.job_sm = .set "SUBMITTED") ∧
    (trigger_id = "wd_job" → job_sm = "SUBMITTED" →
      ∃ o, cqm_submit env trigger_id job_id job_sm job_submit_time = .ret o ∧
        (o.job_sm = .set "SUBMITTED" ∨
          ∃ ps, env.poll job_id = .ok ps ∧ o.job_sm = .set ps.statusValue)) ∧
    (trigger_id = "wd_job" → job_sm ∈ RUNNING →
      ∀ o, cqm_submit env trigger_id job_id job_sm job_submit_time = .ret o →
        ∃ ps, env.poll job_id = .ok ps ∧ o.job_sm = .set ps.statusValue) ∧
    (job_sm ∈ TERMINATED → trigger_id ≠ "btn_solve_cqm" →
      ∀ o, cqm_submit env trigger_id job_id job_sm job_submit_time = .ret o →
        o.job_sm = .noUpdate) ∧
    ((∀ ps, env.poll job_id = .ok ps →
        ps.statusValue ∈ RUNNING ∨ ps.statusValue ∈ TERMINATED) →
      ∀ o s, cqm_submit env trigger_id job_id job_sm job_submit_time = .ret o →
        o.job_sm = .set s →
        s = "SUBMITTED" ∨ s ∈ RUNNING ∨ s ∈ TERMINATED) := by
  refine ⟨?_, ?_, ?_, ?_, ?_⟩
  · rintro rfl
    exact ⟨_, rfl, rfl⟩
  · rintro rfl rfl
    refine ⟨_, rfl, ?_⟩
    rcases submittedPollStatus_cases env job_id job_submit_time with
      h1 | ⟨ps, hp, h1⟩
    · left
      show Upd.set (submittedPollStatus env job_id job_submit_time) = _
      rw [h1]
    · right
      refine ⟨ps, hp, ?_⟩
      show Upd.set (submittedPollStatus env job_id job_submit_time) = _
      rw [h1]
  · rintro rfl hsm o h
    simp only [RUNNING, List.mem_cons, List.not_mem_nil, or_false] at hsm
    rcases hsm with rfl | rfl <;>
    · unfold cqm_submit at h
      rw [if_neg (by decide), if_neg (by decide), if_neg (by decide),
        if_pos (by decide)] at h
      cases hp : env.poll job_id with
      | exc e => rw [hp] at h; cases h
      | ok ps =>
        rw [hp] at h
        refine ⟨ps, rfl, ?_⟩
        simp only at h
        split at h
        · cases h
        · split at h
          · cases h
          · cases h; rfl
  · intro hsm ht o h
    simp only [TERMINATED, List.mem_cons, List.not_mem_nil, or_false] at hsm
    by_cases hw : trigger_id = "wd_job"
    · subst hw
      rcases hsm with rfl | rfl | rfl <;>
      · unfold cqm_submit at h
        rw [if_neg (by decide), if_neg (by decide), if_neg (by decide),
          if_neg (by decide), if_pos (by decide)] at h
        cases h; rfl
    · unfold cqm_submit at h
      rw [if_pos (by rintro (hx | hx); exacts [ht hx, hw hx])] at h
      cases h; rfl
  · intro hrem o s h hset
    rcases cqm_submit_jobSm_cases env trigger_id job_id job_sm job_submit_time o h with
      h1 | h1 | ⟨ps, hp, h1⟩
    · rw [h1] at hset; cases hset
    · rw [h1] at hset
      injection hset with h2
      exact Or.inl h2.symm
    · rw [h1] at hset
      injection hset with h2
      subst h2
      exact Or.inr (hrem ps hp)

/-- Witness for C1: a click from the READY state sets SUBMITTED; a poll
from SUBMITTED against a PENDING remote; a poll from PENDING; a poll
from COMPLETED leaves the label unchanged; chain membership at a
concrete firing. -/
theorem C1_job_sm_state_machine_witness :
    (∃ o, cqm_submit envPending "btn_solve_cqm" "j1" "ready" "t0" = .ret o ∧
      o.job_sm = .set "SUBMITTED") ∧
    (∃ o, cqm_submit envPending "wd_job" "j1" "SUBMITTED" "t0" = .ret o ∧
      (o.job_sm = .set "SUBMITTED" ∨
        ∃ ps, envPending.poll "j1" = .ok ps ∧ o.job_sm = .set ps.statusValue)) ∧
    (∀ o, cqm_submit envPending "wd_job" "j1" "PENDING" "t0" = .ret o →
      ∃ ps, envPending.poll "j1" = .ok ps ∧ o.job_sm = .set ps.statusValue) ∧
    (∀ o, cqm_submit envPending "wd_job" "j1" "COMPLETED" "t0" = .ret o →
      o.job_sm = .noUpdate) ∧
    (∀ o s, cqm_submit envPending "wd_job" "j1" "SUBMITTED" "t0" = .ret o →
      o.job_sm = .set s → s = "SUBMITTED" ∨ s ∈ RUNNING ∨ s ∈ TERMINATED) :=
  ⟨(C1_job_sm_state_machine envPending "btn_solve_cqm" "j1" "ready" "t0").1 rfl,
   (C1_job_sm_state_machine envPending "wd_job" "j1" "SUBMITTED" "t0").2.1 rfl rfl,
   (C1_job_sm_state_machine envPending "wd_job" "j1" "PENDING" "t0").2.2.1 rfl
     (by decide),
   (C1_job_sm_state_machine envPending "wd_job" "j1" "COMPLETED" "t0").2.2.2.1
     (by decide) (by decide),
   (C1_job_sm_state_machine envPending "wd_job" "j1" "SUBMITTED" "t0").2.2.2.2
     (by intro ps hp; injection hp with h; rw [← h]; decide)⟩

/-- C10: a firing of `cqm_submit` whose trigger is neither `btn_solve_cqm`
nor `wd_job` returns `dash.no_update` for every one of its thirteen
outputs, leaving button states, timer settings, progress bar, job state
labels, submission time, elapsed-time text and both solutions outputs
unchanged. -/
theorem C10_other_trigger_all_no_update (env : CqmEnv)
    (trigger_id job_id job_sm job_submit_time : String)
    (h1 : trigger_id ≠ "btn_solve_cqm") (h2 : trigger_id ≠ "wd_job") :
    ∃ o, cqm_submit env trigger_id job_id job_sm job_submit_time = .ret o ∧
      AllNoUpdate o := by
  refine ⟨cqmNoUpdate, ?_, ?_⟩
  · unfold cqm_submit
    rw [if_pos]
    rintro (h | h)
    · exact h1 h
    · exact h2 h
  · exact ⟨rfl, rfl, rfl, rfl, rfl, rfl, rfl, rfl, rfl, rfl, rfl, rfl, rfl⟩

/-- Witness for C10: a firing triggered by the tabs component changes
nothing. -/
theorem C10_other_trigger_all_no_update_witness :
    ∃ o, cqm_submit envPending "tabs" "j1" "SUBMITTED" "t0" = .ret o ∧
      AllNoUpdate o :=
  C10_other_trigger_all_no_update envPending "tabs" "j1" "SUBMITTED" "t0"
    (by decide) (by decide)

/-- Counterexample to C5: the click branch and the SUBMITTED branch of
`cqm_submit` both keep the `wd_job` timer enabled but set different
interval values, 200 ms versus 1000 ms. -/
theorem C5_counterexample :
    ∃ o1 o2, cqm_submit envPending "btn_solve_cqm" "j1" "ready" "t0" = .ret o1 ∧
      cqm_submit envPending "wd_job" "j1" "SUBMITTED" "t0" = .ret o2 ∧
      o1.wd_job_disabled = .set false ∧ o2.wd_job_disabled = .set false ∧
      o1.wd_job_interval = .set 200 ∧ o2.wd_job_interval = .set 1000 ∧
      o1.wd_job_interval ≠ o2.wd_job_interval :=
  ⟨_, _, rfl, rfl, rfl, rfl, rfl, rfl, by decide⟩

/-- C5 amended: the two polling branches (SUBMITTED and PENDING/IN_PROGRESS)
set the same 1000 ms interval and keep the timer enabled, while the click
branch also keeps the timer enabled but sets a shorter 200 ms interval. -/
theorem C5_amended_poll_interval_fixed (env : CqmEnv)
    (job_id job_sm job_submit_time : String) :
    (∃ o, cqm_submit env "btn_solve_cqm" job_id job_sm job_submit_time = .ret o ∧
      o.wd_job_disabled = .set false ∧ o.wd_job_interval = .set 200) ∧
    (∃ o, cqm_submit env "wd_job" job_id "SUBMITTED" job_submit_time = .ret o ∧
      o.wd_job_disabled = .set false ∧ o.wd_job_interval = .set 1000) ∧
    (job_sm ∈ RUNNING →
      ∀ o, cqm_submit env "wd_job" job_id job_sm job_submit_time = .ret o →
        o.wd_job_disabled = .set false ∧ o.wd_job_interval = .set 1000) := by
  refine ⟨⟨_, rfl, rfl, rfl⟩, ⟨_, rfl, rfl, rfl⟩, ?_⟩
  intro hsm o h
  simp only [RUNNING, List.mem_cons, List.not_mem_nil, or_false] at hsm
  rcases hsm with rfl | rfl <;>
  · unfold cqm_submit at h
    rw [if_neg (by decide), if_neg (by decide), if_neg (by decide),
      if_pos (by decide)] at h
    cases hp : env.poll job_id with
    | exc e => rw [hp] at h; cases h
    | ok ps =>
      rw [hp] at h
      simp only at h
      split at h
      · cases h
      · split at h
        · cases h
        · cases h; exact ⟨rfl, rfl⟩

/-- Witness for C5 amended: a PENDING poll keeps the timer at 1000 ms. -/
theorem C5_amended_poll_interval_fixed_witness :
    ∀ o, cqm_submit envPending "wd_job" "j1" "PENDING" "t0" = .ret o →
      o.wd_job_disabled = .set false ∧ o.wd_job_interval = .set 1000 :=
  (C5_amended_poll_interval_fixed envPending "j1" "PENDING" "t0").2.2 (by decide)

/-- Equation for a poll from PENDING or IN_PROGRESS that observes COMPLETED:
the answer is retrieved and serialized into both solutions outputs. -/
theorem cqm_submit_running_completed (env : CqmEnv)
    (job_id job_submit_time job_sm : String)
    (hsm : job_sm = "PENDING" ∨ job_sm = "IN_PROGRESS")
    (ps : ProblemStatus) (sampleset : Sampleset)
    (hp : env.poll job_id = .ok ps)
    (hc : ps.statusValue = "COMPLETED")
    (hr : env.retrieve job_id = .ok sampleset) :
    cqm_submit env "wd_job" job_id job_sm job_submit_time =
      .ret
        { btn_solve_cqm_disabled := .set true
          btn_cancel_style := .noUpdate
          wd_job_disabled := .set false
          wd_job_interval := .set 1000
          wd_job_n_intervals := .set 0
          bar_job_status_value := .set 100
          bar_job_status_color := .set "success"
          job_submit_state := .set (env.outJobSubmitState "COMPLETED")
          job_sm := .set "COMPLETED"
          job_submit_time := .noUpdate
          job_elapsed_time :=
            .set ("Elapsed: " ++ toString (env.elapsedSec job_submit_time) ++ " sec.")
          solutions_print_code := .set (env.serializeSampleset sampleset)
          solutions_print_human := .set (env.humanSampleset sampleset) } := by
  rcases hsm with rfl | rfl <;>
  · unfold cqm_submit
    rw [if_neg (by decide), if_neg (by decide), if_neg (by decide),
      if_pos (by decide), hp]
    simp only
    rw [hc, hr]
    rfl

/-- C6: the solutions outputs of `cqm_submit` change only when a firing from
the PENDING/IN_PROGRESS state observes the remote status COMPLETED, in
which case the retrieved sampleset is serialized into both outputs; in
every other branch and for every other observed status both solutions
outputs are `dash.no_update`. -/
theorem C6_solutions_only_on_completed (env : CqmEnv)
    (trigger_id job_id job_sm job_submit_time : String) :
    (∀ o, cqm_submit env trigger_id job_id job_sm job_submit_time = .ret o →
      (o.solutions_print_code = .noUpdate ∧ o.solutions_print_human = .noUpdate) ∨
      (trigger_id = "wd_job" ∧ job_sm ∈ RUNNING ∧
        ∃ ps sampleset, env.poll job_id = .ok ps ∧ ps.statusValue = "COMPLETED" ∧
          env.retrieve job_id = .ok sampleset ∧
          o.solutions_print_code = .set (env.serializeSampleset sampleset) ∧
          o.solutions_print_human = .set (env.humanSampleset sampleset))) ∧
    (trigger_id = "wd_job" → job_sm ∈ RUNNING →
      ∀ ps sampleset, env.poll job_id = .ok ps → ps.statusValue = "COMPLETED" →
        env.retrieve job_id = .ok sampleset →
        ∃ o, cqm_submit env trigger_id job_id job_sm job_submit_time = .ret o ∧
          o.solutions_print_code = .set (env.serializeSampleset sampleset) ∧
          o.solutions_print_human = .set (env.humanSampleset sampleset)) := by
  constructor
  · intro o h
    unfold cqm_submit at h
    split at h
    · cases h; exact Or.inl ⟨rfl, rfl⟩
    · split at h
      · cases h; exact Or.inl ⟨rfl, rfl⟩
      · split at h
        · cases h; exact Or.inl ⟨rfl, rfl⟩
        · split at h
          · next htr hbtn hsub hrun =>
            cases hp : env.poll job_id with
            | exc e => rw [hp] at h; cases h
            | ok ps =>
              rw [hp] at h
              simp only at h
              by_cases hc : ps.statusValue = "COMPLETED"
              · rw [if_pos hc] at h
                cases hr : env.retrieve job_id with
                | error e => rw [hr] at h; cases h
                | ok sampleset =>
                  rw [hr] at h
                  simp only at h
                  split at h
                  · cases h
                  · cases h
                    right
                    refine ⟨?_, ?_, ps, sampleset, rfl, hc, rfl, rfl, rfl⟩
                    · by_contra hne
                      exact htr (by rintro (hx | hx); exacts [hbtn hx, hne hx])
                    · simpa [RUNNING, List.mem_cons, List.not_mem_nil] using hrun
              · rw [if_neg hc] at h
                simp only at h
                split at h
                · cases h
                · cases h; exact Or.inl ⟨rfl, rfl⟩
          · split at h
            · cases h; exact Or.inl ⟨rfl, rfl⟩
            · cases h
  · rintro rfl hsm ps sampleset hp hc hr
    simp only [RUNNING, List.mem_cons, List.not_mem_nil, or_false] at hsm
    exact ⟨_, cqm_submit_running_completed env job_id job_submit_time job_sm hsm
      ps sampleset hp hc hr, rfl, rfl⟩

/-- Witness for C6: a PENDING firing against a COMPLETED remote sets both
solutions outputs from the retrieved sampleset. -/
theorem C6_solutions_only_on_completed_witness :
    ∃ o, cqm_submit envCompleted "wd_job" "j1" "PENDING" "t0" = .ret o ∧
      o.solutions_print_code = .set (envCompleted.serializeSampleset 7) ∧
      o.solutions_print_human = .set (envCompleted.humanSampleset 7) :=
  (C6_solutions_only_on_completed envCompleted "wd_job" "j1" "PENDING" "t0").2
    rfl (by decide) ⟨"COMPLETED", "Examples - Tour Planning, submitted: t0"⟩ 7
    rfl rfl rfl

/-- A remote that reports COMPLETED but whose answer retrieval raises. -/
def envRetrieveFail : CqmEnv :=
  mkCqmEnv (fun _ => .ok ⟨"COMPLETED", "Examples - Tour Planning, submitted: t0"⟩)
    (fun _ => .error .transient)

/-- A remote that reports PENDING under a stale label (timestamp `t1`). -/
def envStale : CqmEnv :=
  mkCqmEnv (fun _ => .ok ⟨"PENDING", "Examples - Tour Planning, submitted: t1"⟩)
    (fun _ => .ok 7)

/-- Counterexample to C2: in the PENDING/IN_PROGRESS branch of `cqm_submit`
no exception from the status poll is caught, so a transient error escapes
the callback instead of falling back to "SUBMITTED"; the same transient
error also escapes the `get_status` helper, whose `except` clause catches
only `ResourceNotFoundError`. -/
theorem C2_counterexample :
    cqm_submit envTransient "wd_job" "j1" "PENDING" "t0" = .raise .transient ∧
    get_status (fun _ => .exc .transient) "j1" "t0" = .error .transient := by
  constructor <;> rfl

/-- C2 amended: in the SUBMITTED branch of `cqm_submit` every exception from
the status poll is caught and both displayed labels fall back to
"SUBMITTED"; in `get_status` only a not-found error is caught (mapped to
`None`) while any other error propagates; and in the PENDING/IN_PROGRESS
branch of `cqm_submit` nothing is caught, so any poll error propagates. -/
theorem C2_amended_poll_error_handling (env : CqmEnv)
    (poll : String → PollOutcome) (job_id job_sm job_submit_time : String)
    (e : Exc) :
    (env.poll job_id = .exc e →
      ∃ o, cqm_submit env "wd_job" job_id "SUBMITTED" job_submit_time = .ret o ∧
        o.job_sm = .set "SUBMITTED" ∧
        o.job_submit_state = .set (env.outJobSubmitState "SUBMITTED")) ∧
    (poll job_id = .exc .resourceNotFound →
      get_status poll job_id job_submit_time = .ok none) ∧
    (poll job_id = .exc e → e ≠ .resourceNotFound →
      get_status poll job_id job_submit_time = .error e) ∧
    (job_sm ∈ RUNNING → env.poll job_id = .exc e →
      cqm_submit env "wd_job" job_id job_sm job_submit_time = .raise e) := by
  refine ⟨?_, ?_, ?_, ?_⟩
  · intro hp
    have hs : submittedPollStatus env job_id job_submit_time = "SUBMITTED" := by
      unfold submittedPollStatus
      rw [hp]
    refine ⟨_, cqm_submit_submitted_eq env job_id job_submit_time, ?_, ?_⟩ <;>
      rw [hs]
  · intro hp
    unfold get_status
    rw [hp]
  · intro hp hne
    unfold get_status
    rw [hp]
    cases e with
    | resourceNotFound => exact absurd rfl hne
    | transient => rfl
    | indexError => rfl
    | keyError k => rfl
    | valueError => rfl
  · intro hsm hp
    simp only [RUNNING, List.mem_cons, List.not_mem_nil, or_false] at hsm
    rcases hsm with rfl | rfl <;>
    · unfold cqm_submit
      rw [if_neg (by decide), if_neg (by decide), if_neg (by decide),
        if_pos (by decide), hp]

/-- Witness for C2 amended: a transient poll error at a concrete firing is
swallowed by the SUBMITTED branch, mapped to `None` by `get_status` only
when it is a not-found error, propagated by `get_status` otherwise, and
propagated by the PENDING branch. -/
theorem C2_amended_poll_error_handling_witness :
    (∃ o, cqm_submit envTransient "wd_job" "j1" "SUBMITTED" "t0" = .ret o ∧
      o.job_sm = .set "SUBMITTED" ∧
      o.job_submit_state = .set (envTransient.outJobSubmitState "SUBMITTED")) ∧
    get_status (fun _ => .exc .resourceNotFound) "j1" "t0" = .ok none ∧
    get_status (fun _ => .exc .transient) "j1" "t0" = .error .transient ∧
    cqm_submit envTransient "wd_job" "j1" "PENDING" "t0" = .raise .transient :=
  ⟨(C2_amended_poll_error_handling envTransient (fun _ => .exc .transient)
      "j1" "PENDING" "t0" .transient).1 rfl,
   (C2_amended_poll_error_handling envTransient (fun _ => .exc .resourceNotFound)
      "j1" "PENDING" "t0" .transient).2.1 rfl,
   (C2_amended_poll_error_handling envTransient (fun _ => .exc .transient)
      "j1" "PENDING" "t0" .transient).2.2.1 rfl (by decide),
   (C2_amended_poll_error_handling envTransient (fun _ => .exc .transient)
      "j1" "PENDING" "t0" .transient).2.2.2 (by decide) rfl⟩

/-- A submission environment whose solver lookup raises; the other calls
succeed. -/
def envSubmitFail : SubmitEnv :=
  { get_solver := .error .transient
    in_problem_code := fun _ => .ok []
    build_cqm := fun _ _ _ _ _ _ _ _ => ⟨0⟩
    cqmStr := fun c => toString c.modelId
    modes := ["walk", "cycle", "bus", "drive"]
    upload_cqm := fun _ => .ok "pid-1"
    sample_cqm := fun _ _ _ => .ok "wid-1" }

/-- A submission environment in which every remote call succeeds. -/
def envSubmitOk : SubmitEnv :=
  { get_solver := .ok ()
    in_problem_code := fun _ => .ok [⟨94/10, 1/10, false⟩, ⟨69/10, 5/2, false⟩]
    build_cqm := fun legs _ _ _ _ _ _ _ => ⟨legs.length⟩
    cqmStr := fun c => toString c.modelId
    modes := ["walk", "cycle", "bus", "drive"]
    upload_cqm := fun _ => .ok "pid-1"
    sample_cqm := fun _ _ _ => .ok "wid-1" }

/-- A submission environment whose model upload raises. -/
def envUploadFail : SubmitEnv :=
  { envSubmitOk with upload_cqm := fun _ => .error .transient }

/-- A submission environment whose sampling call raises. -/
def envSampleFail : SubmitEnv :=
  { envSubmitOk with sample_cqm := fun _ _ _ => .error .transient }

/-- Counterexample to C3: the remote calls of `job_submit` are not wrapped in
any `try/except`, so a failing solver lookup escapes the callback; the
status poll of the PENDING/IN_PROGRESS branch and the answer retrieval of
`cqm_submit` likewise escape. -/
theorem C3_counterexample :
    job_submit envSubmitFail "job_submit_time" "t0" "[]" 8 200 20 33 44 55 =
      .raise .transient ∧
    cqm_submit envTransient "wd_job" "j1" "IN_PROGRESS" "t0" = .raise .transient ∧
    cqm_submit envRetrieveFail "wd_job" "j1" "PENDING" "t0" = .raise .transient := by
  refine ⟨?_, ?_, ?_⟩ <;> rfl

/-- C3 amended: only the status poll of the SUBMITTED branch, the not-found
case inside `get_status` and the cancellation call of `cancel` are
guarded by `try/except` fallbacks; the submission calls of `job_submit`,
the status poll of the PENDING/IN_PROGRESS branch and the answer
retrieval of `cqm_submit` are unguarded and propagate their exceptions
out of the enclosing callback. -/
theorem C3_amended_try_except_coverage (env : CqmEnv) (senv : SubmitEnv)
    (cancel_problem : String → Except Exc String)
    (poll : String → PollOutcome)
    (job_id job_sm job_submit_time problem_print_code : String)
    (max_leg_slope max_cost max_time weight_cost weight_time weight_slope : Rat)
    (legs : Legs) (problem_data_id : String)
    (ps : ProblemStatus) (e : Exc) :
    (∃ o, cqm_submit env "wd_job" job_id "SUBMITTED" job_submit_time = .ret o) ∧
    (cancel_problem job_id = .error e → cancel cancel_problem job_id = .errObj e) ∧
    (poll job_id = .exc .resourceNotFound →
      get_status poll job_id job_submit_time = .ok none) ∧
    (senv.get_solver = .error e →
      job_submit_dispatch senv "job_submit_time" job_submit_time problem_print_code
        max_leg_slope weight_cost weight_time weight_slope max_cost max_time =
        .raise e) ∧
    (senv.get_solver = .ok () →
      senv.in_problem_code problem_print_code = .ok legs →
      senv.upload_cqm (senv.build_cqm legs senv.modes max_leg_slope weight_cost
        weight_time weight_slope max_cost max_time) = .error e →
      job_submit_dispatch senv "job_submit_time" job_submit_time problem_print_code
        max_leg_slope weight_cost weight_time weight_slope max_cost max_time =
        .raise e) ∧
    (senv.get_solver = .ok () →
      senv.in_problem_code problem_print_code = .ok legs →
      senv.upload_cqm (senv.build_cqm legs senv.modes max_leg_slope weight_cost
        weight_time weight_slope max_cost max_time) = .ok problem_data_id →
      senv.sample_cqm problem_data_id
        ("Examples - Tour Planning, submitted: " ++ job_submit_time) 5 = .error e →
      job_submit_dispatch senv "job_submit_time" job_submit_time problem_print_code
        max_leg_slope weight_cost weight_time weight_slope max_cost max_time =
        .raise e) ∧
    (job_sm ∈ RUNNING → env.poll job_id = .exc e →
      cqm_submit env "wd_job" job_id job_sm job_submit_time = .raise e) ∧
    (job_sm ∈ RUNNING → env.poll job_id = .ok ps → ps.statusValue = "COMPLETED" →
      env.retrieve job_id = .error e →
      cqm_submit env "wd_job" job_id job_sm job_submit_time = .raise e) := by
  refine ⟨⟨_, cqm_submit_submitted_eq env job_id job_submit_time⟩,
    ?_, ?_, ?_, ?_, ?_, ?_, ?_⟩
  · intro hc
    unfold cancel
    rw [hc]
  · intro hp
    unfold get_status
    rw [hp]
  · intro hg
    unfold job_submit_dispatch job_submit
    rw [if_pos rfl, hg]
  · intro hg hcode hup
    unfold job_submit_dispatch job_submit
    rw [if_pos rfl, hg, hcode]
    simp only
    rw [hup]
  · intro hg hcode hup hsa
    unfold job_submit_dispatch job_submit
    rw [if_pos rfl, hg, hcode]
    simp only
    rw [hup]
    simp only
    rw [hsa]
  · intro hsm hp
    simp only [RUNNING, List.mem_cons, List.not_mem_nil, or_false] at hsm
    rcases hsm with rfl | rfl <;>
    · unfold cqm_submit
      rw [if_neg (by decide), if_neg (by decide), if_neg (by decide),
        if_pos (by decide), hp]
  · intro hsm hp hc hr
    simp only [RUNNING, List.mem_cons, List.not_mem_nil, or_false] at hsm
    rcases hsm with rfl | rfl <;>
    · unfold cqm_submit
      rw [if_neg (by decide), if_neg (by decide), if_neg (by decide),
        if_pos (by decide), hp]
      simp only
      rw [hc, hr]
      rfl

/-- Witness for C3 amended at concrete firings: the SUBMITTED branch
returns, `cancel` returns the caught error, `get_status` maps not-found
to `None`, and the unguarded calls propagate. -/
theorem C3_amended_try_except_coverage_witness :
    (∃ o, cqm_submit envTransient "wd_job" "j1" "SUBMITTED" "t0" = .ret o) ∧
    cancel (fun _ => .error .transient) "j1" = .errObj .transient ∧
    get_status (fun _ => .exc .resourceNotFound) "j1" "t0" = .ok none ∧
    job_submit_dispatch envSubmitFail "job_submit_time" "t0" "[]"
      8 33 44 55 200 20 = .raise .transient ∧
    job_submit_dispatch envUploadFail "job_submit_time" "t0" "[...]"
      8 33 44 55 200 20 = .raise .transient ∧
    job_submit_dispatch envSampleFail "job_submit_time" "t0" "[...]"
      8 33 44 55 200 20 = .raise .transient ∧
    cqm_submit envTransient "wd_job" "j1" "PENDING" "t0" = .raise .transient ∧
    cqm_submit envRetrieveFail "wd_job" "j1" "PENDING" "t0" = .raise .transient := by
  have h := C3_amended_try_except_coverage envTransient envSubmitFail
    (fun _ => .error .transient) (fun _ => .exc .resourceNotFound)
    "j1" "PENDING" "t0" "[]" 8 200 20 33 44 55 [] "pid-1"
    ⟨"COMPLETED", "Examples - Tour Planning, submitted: t0"⟩ .transient
  have h2 := C3_amended_try_except_coverage envRetrieveFail envSubmitFail
    (fun _ => .error .transient) (fun _ => .exc .resourceNotFound)
    "j1" "PENDING" "t0" "[]" 8 200 20 33 44 55 [] "pid-1"
    ⟨"COMPLETED", "Examples - Tour Planning, submitted: t0"⟩ .transient
  have h3 := C3_amended_try_except_coverage envTransient envUploadFail
    (fun _ => .error .transient) (fun _ => .exc .resourceNotFound)
    "j1" "PENDING" "t0" "[...]" 8 200 20 33 44 55
    [⟨94/10, 1/10, false⟩, ⟨69/10, 5/2, false⟩] "pid-1"
    ⟨"COMPLETED", "Examples - Tour Planning, submitted: t0"⟩ .transient
  have h4 := C3_amended_try_except_coverage envTransient envSampleFail
    (fun _ => .error .transient) (fun _ => .exc .resourceNotFound)
    "j1" "PENDING" "t0" "[...]" 8 200 20 33 44 55
    [⟨94/10, 1/10, false⟩, ⟨69/10, 5/2, false⟩] "pid-1"
    ⟨"COMPLETED", "Examples - Tour Planning, submitted: t0"⟩ .transient
  exact ⟨h.1, h.2.1 rfl, h.2.2.1 rfl, h.2.2.2.1 rfl,
    h3.2.2.2.2.1 rfl rfl rfl,
    h4.2.2.2.2.2.1 rfl rfl rfl rfl,
    h.2.2.2.2.2.2.1 (by decide) rfl,
    h2.2.2.2.2.2.2.2 (by decide) rfl rfl rfl⟩

/-- C9: a stale job's status is never displayed: when the polled label
carries an embedded timestamp, the SUBMITTED branch of `cqm_submit`
adopts the remote status only if that timestamp equals the current
`job_submit_time` and otherwise falls back to "SUBMITTED" in both state
labels; `get_status` likewise returns the status only on a match and
`None` on a mismatch, for every job id and timestamp pair. -/
theorem C9_stale_status_never_displayed (env : CqmEnv)
    (poll : String → PollOutcome) (job_id job_submit_time : String)
    (ps qs : ProblemStatus) (lt mt : String)
    (hp : env.poll job_id = .ok ps)
    (hl : (pySplit ps.label "submitted: ")[1]? = some lt)
    (hq : poll job_id = .ok qs)
    (hm : (pySplit qs.label "submitted: ")[1]? = some mt) :
    (lt ≠ job_submit_time →
      ∃ o, cqm_submit env "wd_job" job_id "SUBMITTED" job_submit_time = .ret o ∧
        o.job_sm = .set "SUBMITTED" ∧
        o.job_submit_state = .set (env.outJobSubmitState "SUBMITTED")) ∧
    (lt = job_submit_time →
      ∃ o, cqm_submit env "wd_job" job_id "SUBMITTED" job_submit_time = .ret o ∧
        o.job_sm = .set ps.statusValue) ∧
    (mt ≠ job_submit_time →
      get_status poll job_id job_submit_time = .ok none) ∧
    (mt = job_submit_time →
      get_status poll job_id job_submit_time = .ok (some qs.statusValue)) := by
  refine ⟨?_, ?_, ?_, ?_⟩
  · intro hne
    have hs : submittedPollStatus env job_id job_submit_time = "SUBMITTED" := by
      rw [submittedPollStatus_label env job_id job_submit_time ps lt hp hl,
        if_neg hne]
    refine ⟨_, cqm_submit_submitted_eq env job_id job_submit_time, ?_, ?_⟩ <;>
      rw [hs]
  · intro heq
    have hs : submittedPollStatus env job_id job_submit_time = ps.statusValue := by
      rw [submittedPollStatus_label env job_id job_submit_time ps lt hp hl,
        if_pos heq]
    refine ⟨_, cqm_submit_submitted_eq env job_id job_submit_time, ?_⟩
    rw [hs]
  · intro hne
    unfold get_status
    rw [hq]
    show (match (pySplit qs.label "submitted: ")[1]? with
      | none => Except.error Exc.indexError
      | some label_time =>
        if label_time = job_submit_time then Except.ok (some qs.statusValue)
        else Except.ok none) = _
    rw [hm]
    show (if mt = job_submit_time then Except.ok (some qs.statusValue)
      else Except.ok none) = _
    rw [if_neg hne]
  · intro heq
    unfold get_status
    rw [hq]
    show (match (pySplit qs.label "submitted: ")[1]? with
      | none => Except.error Exc.indexError
      | some label_time =>
        if label_time = job_submit_time then Except.ok (some qs.statusValue)
        else Except.ok none) = _
    rw [hm]
    show (if mt = job_submit_time then Except.ok (some qs.statusValue)
      else Except.ok none) = _
    rw [if_pos heq]

/-- Witness for C9: a label stamped `t1` polled while the current submission
time is `t0` is displayed as "SUBMITTED" by `cqm_submit` and as `None` by
`get_status`; a label stamped `t0` is adopted. -/
theorem C9_stale_status_never_displayed_witness :
    (∃ o, cqm_submit envStale "wd_job" "j1" "SUBMITTED" "t0" = .ret o ∧
      o.job_sm = .set "SUBMITTED" ∧
      o.job_submit_state = .set (envStale.outJobSubmitState "SUBMITTED")) ∧
    (∃ o, cqm_submit envPending "wd_job" "j1" "SUBMITTED" "t0" = .ret o ∧
      o.job_sm = .set "PENDING") ∧
    get_status envStale.poll "j1" "t0" = .ok none ∧
    get_status envPending.poll "j1" "t0" = .ok (some "PENDING") :=
  ⟨(C9_stale_status_never_displayed envStale envStale.poll "j1" "t0"
      ⟨"PENDING", "Examples - Tour Planning, submitted: t1"⟩
      ⟨"PENDING", "Examples - Tour Planning, submitted: t1"⟩
      "t1" "t1" rfl (by decide) rfl (by decide)).1 (by decide),
   (C9_stale_status_never_displayed envPending envPending.poll "j1" "t0"
      ⟨"PENDING", "Examples - Tour Planning, submitted: t0"⟩
      ⟨"PENDING", "Examples - Tour Planning, submitted: t0"⟩
      "t0" "t0" rfl (by decide) rfl (by decide)).2.1 rfl,
   (C9_stale_status_never_displayed envStale envStale.poll "j1" "t0"
      ⟨"PENDING", "Examples - Tour Planning, submitted: t1"⟩
      ⟨"PENDING", "Examples - Tour Planning, submitted: t1"⟩
      "t1" "t1" rfl (by decide) rfl (by decide)).2.2.1 (by decide),
   (C9_stale_status_never_displayed envPending envPending.poll "j1" "t0"
      ⟨"PENDING", "Examples - Tour Planning, submitted: t0"⟩
      ⟨"PENDING", "Examples - Tour Planning, submitted: t0"⟩
      "t0" "t0" rfl (by decide) rfl (by decide)).2.2.2 rfl⟩

/-- C4 (code bug): Dash binds the callback's arguments positionally in the
decorator's State order, so a firing of `job_submit` triggered by
`job_submit_time` parses the problem code, uploads a model and returns
the sampling computation's job id labelled with the submission timestamp
as claimed, but the model it builds receives the weight settings in the
cost and time budget slots of `build_cqm` and the budget settings in the
weight-time and weight-slope slots, not "the current slope, cost, time
and weight settings" in their roles; any other trigger returns
`dash.no_update`, leaving `job_id` unchanged. -/
theorem C4_job_submit_miswired (env : SubmitEnv)
    (trigger_id job_submit_time problem_print_code : String)
    (max_leg_slope weight_cost weight_time weight_slope max_cost max_time : Rat)
    (legs : Legs) (problem_data_id wait_id : String) :
    (trigger_id = "job_submit_time" →
      env.get_solver = .ok () →
      env.in_problem_code problem_print_code = .ok legs →
      env.upload_cqm (env.build_cqm legs env.modes max_leg_slope weight_cost
        weight_time weight_slope max_cost max_time) = .ok problem_data_id →
      env.sample_cqm problem_data_id
        ("Examples - Tour Planning, submitted: " ++ job_submit_time) 5 =
        .ok wait_id →
      job_submit_dispatch env trigger_id job_submit_time problem_print_code
        max_leg_slope weight_cost weight_time weight_slope max_cost max_time =
        .ret (.set wait_id)) ∧
    (trigger_id ≠ "job_submit_time" →
      job_submit_dispatch env trigger_id job_submit_time problem_print_code
        max_leg_slope weight_cost weight_time weight_slope max_cost max_time =
        .ret .noUpdate) := by
  constructor
  · rintro rfl hg hcode hup hsa
    unfold job_submit_dispatch job_submit
    rw [if_pos rfl, hg, hcode]
    simp only
    rw [hup]
    simp only
    rw [hsa]
  · intro hne
    unfold job_submit_dispatch job_submit
    rw [if_neg hne]

/-- A probe environment: the uploaded model id encodes the values landing in
the cost-budget slot and the weight-time slot of `build_cqm` (as
cost-slot * 1000 + weight-time-slot), and the returned job id is that
model id, so the submission's result exposes which UI settings reached
which slots. -/
def envProbe : SubmitEnv :=
  { get_solver := .ok ()
    in_problem_code := fun _ => .ok [⟨94/10, 1/10, false⟩, ⟨69/10, 5/2, false⟩]
    build_cqm := fun _ _ _ max_cost _ _ weight_time _ =>
      ⟨max_cost.num.toNat * 1000 + weight_time.num.toNat⟩
    cqmStr := fun c => toString c.modelId
    modes := ["walk", "cycle", "bus", "drive"]
    upload_cqm := fun c => .ok (toString c.modelId)
    sample_cqm := fun problem_data_id _ _ => .ok problem_data_id }

/-- Witness for C4 at the failing input: with UI settings max_leg_slope 8,
weight_cost 33, weight_time 44, weight_slope 55, max_cost 200,
max_time 20, the probed job id is "33200" — the cost-budget slot of the
built model received the weight-cost setting 33 and the weight-time slot
received the cost budget 200, where wiring each setting to its role
would give "200044" (cost-slot 200, weight-time-slot 44); a firing by
another trigger changes nothing. -/
theorem C4_job_submit_miswired_witness :
    job_submit_dispatch envProbe "job_submit_time" "t0" "[...]"
      8 33 44 55 200 20 = .ret (.set "33200") ∧
    job_submit_dispatch envProbe "tabs" "t0" "[...]"
      8 33 44 55 200 20 = .ret .noUpdate :=
  ⟨(C4_job_submit_miswired envProbe "job_submit_time" "t0" "[...]"
      8 33 44 55 200 20 [⟨94/10, 1/10, false⟩, ⟨69/10, 5/2, false⟩]
      "33200" "33200").1 rfl rfl rfl rfl rfl,
   (C4_job_submit_miswired envProbe "tabs" "t0" "[...]"
      8 33 44 55 200 20 [] "p" "w").2 (by decide)⟩

/-- C7 (code bug): under Dash's positional binding, a firing of the `cqm`
callback triggered by `input_print` or `problem_print_code` with a
parsing problem code prints the string form of a model built with the
weight settings in the cost and time budget slots of `build_cqm` and the
budget settings in the weight-time and weight-slope slots — not "the
current slope, cost, time and weight values" in their roles; on a
`ValueError` from parsing it returns `dash.no_update` as claimed. -/
theorem C7_cqm_callback_miswired (env : SubmitEnv)
    (trigger_id input_print problem_print_code : String)
    (max_leg_slope weight_cost weight_time weight_slope max_cost max_time : Rat)
    (legs : Legs)
    (htr : trigger_id = "input_print" ∨ trigger_id = "problem_print_code") :
    (env.in_problem_code problem_print_code = .ok legs →
      cqm_callback_dispatch env trigger_id input_print problem_print_code
        max_leg_slope weight_cost weight_time weight_slope max_cost max_time =
        .ok (some (.set (env.cqmStr (env.build_cqm legs env.modes max_leg_slope
          weight_cost weight_time weight_slope max_cost max_time))))) ∧
    (env.in_problem_code problem_print_code = .error .valueError →
      cqm_callback_dispatch env trigger_id input_print problem_print_code
        max_leg_slope weight_cost weight_time weight_slope max_cost max_time =
        .ok (some .noUpdate)) := by
  constructor <;> intro hcode <;> unfold cqm_callback_dispatch cqm_callback <;>
    rw [if_pos htr, hcode]

/-- A `cqm`-callback environment whose problem code does not yet parse
(initial pass), raising `ValueError`. -/
def envParseFail : SubmitEnv :=
  { envSubmitOk with in_problem_code := fun _ => .error .valueError }

/-- Witness for C7 at the failing input: with the same probe environment and
UI settings as for C4, the printed model encodes "33200" — weight-cost
33 in the cost-budget slot, cost budget 200 in the weight-time slot;
with the initial unparsable code the callback returns no update. -/
theorem C7_cqm_callback_miswired_witness :
    cqm_callback_dispatch envProbe "problem_print_code" "ip" "[...]"
      8 33 44 55 200 20 = .ok (some (.set "33200")) ∧
    cqm_callback_dispatch envParseFail "input_print" "ip" " "
      8 33 44 55 200 20 = .ok (some .noUpdate) :=
  ⟨(C7_cqm_callback_miswired envProbe "problem_print_code" "ip" "[...]"
      8 33 44 55 200 20 [⟨94/10, 1/10, false⟩, ⟨69/10, 5/2, false⟩]
      (Or.inr rfl)).1 rfl,
   (C7_cqm_callback_miswired envParseFail "input_print" "ip" " "
      8 33 44 55 200 20 [] (Or.inl rfl)).2 rfl⟩

/-- C8: when `user_inputs` is triggered by `max_leg_length` or
`min_leg_length`, the leg-length values it returns satisfy
`min_leg_length ≤ max_leg_length`, and editing one bound past the other
clamps the other bound to the edited value, for every pair of inputs. -/
theorem C8_leg_length_bounds_clamped
    (out_input_human : InputsRec → Option String → String) (trigger_id : String)
    (num_legs max_leg_length min_leg_length max_leg_slope
     weight_cost weight_time weight_slope
     weight_cost_slider weight_time_slider weight_slope_slider
     max_cost max_time : Rat)
    (htr : trigger_id = "max_leg_length" ∨ trigger_id = "min_leg_length") :
    ((user_inputs out_input_human trigger_id num_legs max_leg_length
        min_leg_length max_leg_slope weight_cost weight_time weight_slope
        weight_cost_slider weight_time_slider weight_slope_slider
        max_cost max_time).min_leg_length ≤
      (user_inputs out_input_human trigger_id num_legs max_leg_length
        min_leg_length max_leg_slope weight_cost weight_time weight_slope
        weight_cost_slider weight_time_slider weight_slope_slider
        max_cost max_time).max_leg_length) ∧
    (trigger_id = "max_leg_length" → max_leg_length ≤ min_leg_length →
      (user_inputs out_input_human trigger_id num_legs max_leg_length
        min_leg_length max_leg_slope weight_cost weight_time weight_slope
        weight_cost_slider weight_time_slider weight_slope_slider
        max_cost max_time).min_leg_length = max_leg_length) ∧
    (trigger_id = "min_leg_length" → min_leg_length ≥ max_leg_length →
      (user_inputs out_input_human trigger_id num_legs max_leg_length
        min_leg_length max_leg_slope weight_cost weight_time weight_slope
        weight_cost_slider weight_time_slider weight_slope_slider
        max_cost max_time).max_leg_length = min_leg_length) := by
  rcases htr with rfl | rfl
  · by_cases hc : max_leg_length ≤ min_leg_length
    · refine ⟨?_, ?_, ?_⟩
      · simp [user_inputs, hc]
      · intro _ _; simp [user_inputs, hc]
      · intro h _; exact absurd h (by decide)
    · refine ⟨?_, ?_, ?_⟩
      · simp only [user_inputs]
        simp [hc]
        linarith [lt_of_not_le hc]
      · intro _ hcc; exact absurd hcc hc
      · intro h _; exact absurd h (by decide)
  · by_cases hc : min_leg_length ≥ max_leg_length
    · refine ⟨?_, ?_, ?_⟩
      · simp [user_inputs, hc]
      · intro h _; exact absurd h (by decide)
      · intro _ _; simp [user_inputs, hc]
    · refine ⟨?_, ?_, ?_⟩
      · simp only [user_inputs]
        simp [hc]
        linarith [lt_of_not_le hc]
      · intro h _; exact absurd h (by decide)
      · intro _ hcc; exact absurd hcc hc

/-- Witness for C8: editing the longest-leg bound down to 2 while the
shortest is 5 clamps the shortest to 2. -/
theorem C8_leg_length_bounds_clamped_witness :
    ((user_inputs (fun _ _ => "txt") "max_leg_length" 10 2 5 8
        33 44 55 33 44 55 200 20).min_leg_length ≤
      (user_inputs (fun _ _ => "txt") "max_leg_length" 10 2 5 8
        33 44 55 33 44 55 200 20).max_leg_length) ∧
    ((user_inputs (fun _ _ => "txt") "max_leg_length" 10 2 5 8
        33 44 55 33 44 55 200 20).min_leg_length = 2) := by
  have h := C8_leg_length_bounds_clamped (fun _ _ => "txt") "max_leg_length"
    10 2 5 8 33 44 55 33 44 55 200 20 (Or.inl rfl)
  exact ⟨h.1, h.2.1 rfl (by norm_num)⟩

end TourPlanning
